import Mathlib

/-!
Verification development for the JAX-GalSim core (bounds, image, convolution,
deconvolution, photon accumulation loop).  The Python sources are shallowly
embedded: machine floats are modelled by exact rationals `ℚ`, integer scalars
by `ℤ`/`ℕ`, numpy arrays by row-major lists of rows, and code paths that raise
exceptions by `Except` values.
-/

namespace JaxGalsim

/-! ## Bounds (bounds.py) -/

/-- Axis-aligned rectangle: the four extrema plus the defined flag
(`Bounds._isdefined` in bounds.py).  `BoundsI` instantiates `α := ℤ`,
`BoundsD` instantiates `α := ℚ`. -/
structure Bounds (α : Type) where
  xmin : α
  xmax : α
  ymin : α
  ymax : α
  isdefined : Bool
deriving DecidableEq, Repr

/-- Bounds._parse_args with zero positional arguments (bounds.py lines 27-29):
the undefined bounds, all four fields zero and the flag cleared. -/
def Bounds.empty {α : Type} [Zero α] : Bounds α := ⟨0, 0, 0, 0, false⟩

/-- Bounds._parse_args with four scalar extrema (bounds.py lines 24-26)
followed by the scalar validity check (lines 84-92): the flag is set and the
four fields are stored as given; the flag is cleared again when
`xmin > xmax` or `ymin > ymax`.  The four fields are NOT reset in that case. -/
def Bounds.fromExtrema {α : Type} [LinearOrder α] (xmin xmax ymin ymax : α) : Bounds α :=
  { xmin := xmin, xmax := xmax, ymin := ymin, ymax := ymax,
    isdefined := if xmin > xmax ∨ ymin > ymax then false else true }

/-- Bounds.includes with two scalar arguments (bounds.py lines 129-135). -/
def Bounds.includesXY {α : Type} [LinearOrder α] (b : Bounds α) (x y : α) : Bool :=
  b.isdefined && decide (b.xmin ≤ x) && decide (x ≤ b.xmax) &&
    decide (b.ymin ≤ y) && decide (y ≤ b.ymax)

/-- Bounds.includes with a Bounds argument (bounds.py lines 110-119). -/
def Bounds.includesB {α : Type} [LinearOrder α] (b o : Bounds α) : Bool :=
  b.isdefined && o.isdefined && decide (b.xmin ≤ o.xmin) && decide (b.xmax ≥ o.xmax) &&
    decide (b.ymin ≤ o.ymin) && decide (b.ymax ≥ o.ymax)

/-- Bounds.__and__ (bounds.py lines 152-165): intersection.  Either operand
undefined gives the empty bounds; a degenerate overlap also gives the empty
bounds; otherwise the class constructor is called on the four new extrema. -/
def Bounds.and {α : Type} [LinearOrder α] [Zero α] (b o : Bounds α) : Bounds α :=
  if !b.isdefined || !o.isdefined then Bounds.empty
  else
    let xmin := max b.xmin o.xmin
    let xmax := min b.xmax o.xmax
    let ymin := max b.ymin o.ymin
    let ymax := min b.ymax o.ymax
    if xmin > xmax ∨ ymin > ymax then Bounds.empty
    else Bounds.fromExtrema xmin xmax ymin ymax

/-- Bounds.__add__ for a Bounds right operand (bounds.py lines 167-178):
union.  An undefined right operand returns the left operand unchanged; an
undefined left operand returns the right operand; otherwise the constructor
is called on the combined extrema. -/
def Bounds.add {α : Type} [LinearOrder α] (b o : Bounds α) : Bounds α :=
  if !o.isdefined then b
  else if b.isdefined then
    Bounds.fromExtrema (min b.xmin o.xmin) (max b.xmax o.xmax)
      (min b.ymin o.ymin) (max b.ymax o.ymax)
  else o

/-- Modelled from the spec: value equality of `Bounds` (the `__eq__` method is
inherited from the galsim base class, which is not among the sources).  The
spec (§3) treats an undefined bounds as one canonical empty value, so two
undefined bounds are equal regardless of their stored fields, and two defined
bounds are equal when their four extrema agree. -/
def Bounds.eqv {α : Type} [DecidableEq α] (b o : Bounds α) : Bool :=
  (!b.isdefined && !o.isdefined) ||
    (b.isdefined && o.isdefined && decide (b.xmin = o.xmin) && decide (b.xmax = o.xmax) &&
      decide (b.ymin = o.ymin) && decide (b.ymax = o.ymax))

/-- BoundsI.numpyShape (bounds.py lines 344-349). -/
def Bounds.numpyShape (b : Bounds ℤ) : ℕ × ℕ :=
  if b.isdefined then ((b.ymax - b.ymin + 1).toNat, (b.xmax - b.xmin + 1).toNat)
  else (0, 0)

/-! ## Image (image.py)

The pixel buffer is a row-major list of rows of rationals; the dtype tower of
image.py (int16 .. complex128) is collapsed to the single exact scalar `ℚ`,
which makes the dtype-dispatch branches of the in-place operators coincide.
The wcs is carried around untouched, as an optional pixel scale. -/

/-- Pixel buffer: row-major list of rows. -/
abbrev PixArray := List (List ℚ)

/-- Shape of a pixel buffer, numpy convention (rows, cols). -/
def PixArray.shape (a : PixArray) : ℕ × ℕ :=
  (a.length, (a.head?.map List.length).getD 0)

/-- Elementwise combination of two buffers of equal shape. -/
def PixArray.zipPix (f : ℚ → ℚ → ℚ) (a b : PixArray) : PixArray :=
  List.zipWith (List.zipWith f) a b

/-- Update of one pixel at row `i`, column `j`. -/
def PixArray.modPix (f : ℚ → ℚ) : PixArray → ℕ → ℕ → PixArray
  | [], _, _ => []
  | r :: rs, 0, j => r.set j (f (r.getD j 0)) :: rs
  | r :: rs, Nat.succ i, j => r :: PixArray.modPix f rs i j

/-- Image._make_empty (image.py lines 496-502): a zero buffer of the given
shape, with a degenerate shape forced to a 1×1 placeholder. -/
def makeEmpty (shape : ℕ × ℕ) : PixArray :=
  if shape.1 * shape.2 = 0 then [[0]]
  else List.replicate shape.1 (List.replicate shape.2 0)

/-- The `Image` data model (image.py): the owned buffer, its bounds, the
optional wcs (a pixel scale here), and the const flag (`_is_const`). -/
structure Image where
  array : PixArray
  bounds : Bounds ℤ
  wcs : Option ℚ
  is_const : Bool
deriving DecidableEq, Repr

/-- Error taxonomy of the image methods: the exception classes raised in
image.py. -/
inductive ImgError where
  | immutable
  | undefinedBounds
  | boundsError
  | incompatibleValues
deriving DecidableEq, Repr

/-- Image constructor from a bounds only (image.py lines 190-196): zeroed
buffer of the bounds' numpy shape, no wcs, not const. -/
def Image.fromBounds (b : Bounds ℤ) : Image :=
  { array := makeEmpty b.numpyShape, bounds := b, wcs := none, is_const := false }

/-- Image.setValue (image.py lines 993-1008), with the positional-argument
parsing dropped: const check, defined-bounds check, bounds check, then the
unchecked `_setValue` write at `(y - ymin, x - xmin)`. -/
def Image.setValue (im : Image) (x y : ℤ) (value : ℚ) : Except ImgError Image :=
  if im.is_const then .error .immutable
  else if !im.bounds.isdefined then .error .undefinedBounds
  else if !im.bounds.includesXY x y then .error .boundsError
  else .ok { im with
    array := PixArray.modPix (fun _ => value) im.array
      (y - im.bounds.ymin).toNat (x - im.bounds.xmin).toNat }

/-- Image.addValue (image.py lines 1021-1047): same checks as `setValue`, the
unchecked write adds to the pixel instead of replacing it. -/
def Image.addValue (im : Image) (x y : ℤ) (value : ℚ) : Except ImgError Image :=
  if im.is_const then .error .immutable
  else if !im.bounds.isdefined then .error .undefinedBounds
  else if !im.bounds.includesXY x y then .error .boundsError
  else .ok { im with
    array := PixArray.modPix (fun v => v + value) im.array
      (y - im.bounds.ymin).toNat (x - im.bounds.xmin).toNat }

/-- Image.fill (image.py lines 1049-1065): const check, defined-bounds check,
then `_fill` replaces the buffer by a same-shaped constant buffer. -/
def Image.fill (im : Image) (value : ℚ) : Except ImgError Image :=
  if im.is_const then .error .immutable
  else if !im.bounds.isdefined then .error .undefinedBounds
  else .ok { im with array := im.array.map (List.map (fun _ => value)) }

/-- Image.setZero (image.py lines 1067-1071): const check then `_fill(0)`
(no defined-bounds check in the source). -/
def Image.setZero (im : Image) : Except ImgError Image :=
  if im.is_const then .error .immutable
  else .ok { im with array := im.array.map (List.map (fun _ => 0)) }

/-- Image.resize (image.py lines 504-524): const check, then the buffer is
replaced by an empty buffer of the new bounds' shape; the wcs is updated only
when one is provided. -/
def Image.resize (im : Image) (bounds : Bounds ℤ) (wcs : Option ℚ) : Except ImgError Image :=
  if im.is_const then .error .immutable
  else .ok { array := makeEmpty bounds.numpyShape, bounds := bounds,
             wcs := match wcs with | none => im.wcs | some w => some w,
             is_const := im.is_const }

/-- Image.subImage (image.py lines 526-550): defined-bounds check, full
containment check, then the `[i1:i2, j1:j2]` slice is returned as a new image
carrying the requested bounds and the parent wcs. -/
def Image.subImage (im : Image) (b : Bounds ℤ) : Except ImgError Image :=
  if !im.bounds.isdefined then .error .undefinedBounds
  else if !im.bounds.includesB b then .error .boundsError
  else
    let i1 := (b.ymin - im.bounds.ymin).toNat
    let i2 := (b.ymax - im.bounds.ymin + 1).toNat
    let j1 := (b.xmin - im.bounds.xmin).toNat
    let j2 := (b.xmax - im.bounds.xmin + 1).toNat
    .ok { array := ((im.array.take i2).drop i1).map (fun r => (r.take j2).drop j1),
          bounds := b, wcs := im.wcs, is_const := false }

/-- Image.__getitem__ with a BoundsI index (image.py lines 592-594): delegates
to `subImage`. -/
def Image.getItemB (im : Image) (b : Bounds ℤ) : Except ImgError Image :=
  im.subImage b

/-- Overwrite of rows `i1..` at column offset `j1` with the rows of `rhs`
(the `at[i1:i2, j1:j2].set(rhs)` update used by setSubImage). -/
def PixArray.blockSet : PixArray → ℕ → ℕ → PixArray → PixArray
  | a, _, _, [] => a
  | [], _, _, _ => []
  | r :: rs, 0, j1, s :: ss =>
      (r.take j1 ++ s ++ r.drop (j1 + s.length)) :: PixArray.blockSet rs 0 j1 ss
  | r :: rs, Nat.succ i, j1, s => r :: PixArray.blockSet rs i j1 s

/-- Image.setSubImage (image.py lines 552-581): const check, defined-bounds
check, containment check, shape-compatibility check, then the block write. -/
def Image.setSubImage (im : Image) (b : Bounds ℤ) (rhs : Image) : Except ImgError Image :=
  if im.is_const then .error .immutable
  else if !im.bounds.isdefined then .error .undefinedBounds
  else if !im.bounds.includesB b then .error .boundsError
  else if b.numpyShape ≠ rhs.bounds.numpyShape then .error .incompatibleValues
  else .ok { im with
    array := PixArray.blockSet im.array (b.ymin - im.bounds.ymin).toNat
      (b.xmin - im.bounds.xmin).toNat rhs.array }

/-- Image.copyFrom (image.py lines 852-864): const check, then a
bounds-shape-compatibility check, then the whole buffer is replaced. -/
def Image.copyFrom (im : Image) (rhs : Image) : Except ImgError Image :=
  if im.is_const then .error .immutable
  else if im.bounds.numpyShape ≠ rhs.bounds.numpyShape then .error .incompatibleValues
  else .ok { im with array := rhs.array }

/-! Binary and in-place arithmetic operators (image.py lines 1274-1359).
`check_image_consistency` compares only the shapes of the two underlying
arrays (the `integer` flag concerns the bitwise operators only, which are not
modelled here); the scalar right-operand overload is omitted.  With the dtype
tower collapsed to `ℚ`, the two dtype branches of the in-place operators
coincide. -/

/-- Image_add = Image.__add__ (image.py lines 1286-1292): shape check only,
the result carries the LEFT operand's bounds and wcs and is not const. -/
def Image_add (im1 im2 : Image) : Except ImgError Image :=
  if im1.array.shape ≠ im2.array.shape then .error .incompatibleValues
  else .ok { array := PixArray.zipPix (· + ·) im1.array im2.array,
             bounds := im1.bounds, wcs := im1.wcs, is_const := false }

/-- Image_sub = Image.__sub__ (image.py lines 1310-1316). -/
def Image_sub (im1 im2 : Image) : Except ImgError Image :=
  if im1.array.shape ≠ im2.array.shape then .error .incompatibleValues
  else .ok { array := PixArray.zipPix (· - ·) im1.array im2.array,
             bounds := im1.bounds, wcs := im1.wcs, is_const := false }

/-- Image_mul = Image.__mul__ (image.py lines 1338-1344). -/
def Image_mul (im1 im2 : Image) : Except ImgError Image :=
  if im1.array.shape ≠ im2.array.shape then .error .incompatibleValues
  else .ok { array := PixArray.zipPix (· * ·) im1.array im2.array,
             bounds := im1.bounds, wcs := im1.wcs, is_const := false }

/-- Image_iadd = Image.__iadd__ (image.py lines 1295-1307): shape check, then
`self._array` is replaced by the sum and `self` is returned.  NOTE: unlike
setValue, fill, resize, etc., this method performs NO `isconst` check in the
source, so it succeeds (and mutates) even on a const image. -/
def Image_iadd (im1 im2 : Image) : Except ImgError Image :=
  if im1.array.shape ≠ im2.array.shape then .error .incompatibleValues
  else .ok { im1 with array := PixArray.zipPix (· + ·) im1.array im2.array }

/-! ## GSParams, Position, GSObject (gsobject.py, convolve.py) -/

/-- Modelled from the spec: `GSParams` (gsparams.py is not among the sources).
The spec (§3, Glossary) describes it as the accuracy/performance configuration
attached to every object, carrying among others the maximum FFT size and the
k-value accuracy; only the fields the claims use are kept. -/
structure GSParams where
  maximum_fft_size : ℕ
  kvalue_accuracy : ℚ
deriving DecidableEq, Repr

/-- Default accuracy parameters (galsim defaults: 8192, 1e-5). -/
def GSParams.dflt : GSParams := ⟨8192, 1 / 100000⟩

/-- Modelled from the spec: `GSParams.check` (gsparams.py is not among the
sources).  A gsparams given explicitly wins; otherwise the supplied default
(usually the wrapped object's own gsparams) is used. -/
def GSParams.check (g : Option GSParams) (default : GSParams) : GSParams :=
  g.getD default

/-- Modelled from the spec: `GSParams.combine` (gsparams.py is not among the
sources); spec §4.4 says the "most restrictive" combination of the children's
parameters is taken.  Restrictive means the smaller FFT ceiling and the
smaller (more accurate) k-value threshold. -/
def GSParams.combine (gs : List GSParams) : GSParams :=
  match gs with
  | [] => GSParams.dflt
  | g :: rest =>
      rest.foldl
        (fun a b => ⟨min a.maximum_fft_size b.maximum_fft_size,
                     min a.kvalue_accuracy b.kvalue_accuracy⟩) g

/-- Modelled from the spec: `Position` (§3), a pure 2-tuple `(x, y)`
(position.py is not among the sources). -/
structure Position where
  x : ℚ
  y : ℚ
deriving DecidableEq, Repr

instance : Add Position := ⟨fun p q => ⟨p.x + q.x, p.y + q.y⟩⟩

instance : Neg Position := ⟨fun p => ⟨-p.x, -p.y⟩⟩

instance : Zero Position := ⟨⟨0, 0⟩⟩

/-- A primitive profile stand-in exposing only the abstract GSObject contract
the claims use (spec §3, §4.3): flux, centroid, the hard-edge and
real-space-analyticity flags, and its gsparams. -/
structure Profile where
  flux : ℚ
  centroid : Position
  has_hard_edges : Bool
  is_analytic_x : Bool
  gsparams : GSParams
deriving DecidableEq, Repr

mutual

/-- The recursive object-composition algebra (spec §3): a primitive profile,
a `Convolution` node (ordered child list, real_space flag, gsparams,
propagate_gsparams flag — the attributes stored by `Convolution.__init__`,
convolve.py lines 119-140), or a `Deconvolution` node (single child, gsparams,
propagate_gsparams — `Deconvolution.__init__`, convolve.py lines 373-383). -/
inductive GSObj where
  | prim (p : Profile)
  | conv (obj_list : GSObjList) (real_space : Bool) (gsparams : GSParams)
      (propagate_gsparams : Bool)
  | deconv (orig_obj : GSObj) (gsparams : GSParams) (propagate_gsparams : Bool)

/-- An ordered list of child objects (a dedicated type so that all the
recursive operations below are structurally recursive). -/
inductive GSObjList where
  | nil
  | cons (head : GSObj) (tail : GSObjList)

end

/-- The number of children in a child list. -/
def GSObjList.length : GSObjList → ℕ
  | .nil => 0
  | .cons _ rest => rest.length + 1

/-- Whether every child satisfies the boolean test. -/
def GSObjList.all (f : GSObj → Bool) : GSObjList → Bool
  | .nil => true
  | .cons o rest => f o && GSObjList.all f rest

/-- Whether some child satisfies the boolean test. -/
def GSObjList.any (f : GSObj → Bool) : GSObjList → Bool
  | .nil => false
  | .cons o rest => f o || GSObjList.any f rest

/-- The gsparams attached at the root of an object. -/
def GSObj.gsparams : GSObj → GSParams
  | .prim p => p.gsparams
  | .conv _ _ g _ => g
  | .deconv _ g _ => g

/-- The children's gsparams, as a plain list. -/
def GSObjList.gsparamsList : GSObjList → List GSParams
  | .nil => []
  | .cons o rest => o.gsparams :: rest.gsparamsList

mutual

/-- The flux: a primitive's stored flux; `Convolution._flux` (convolve.py
lines 255-258) is the product of the children's fluxes; `Deconvolution._flux`
(convolve.py lines 473-475) is the reciprocal of the child's flux. -/
def GSObj.flux : GSObj → ℚ
  | .prim p => p.flux
  | .conv objs _ _ _ => GSObjList.fluxProd objs
  | .deconv o _ _ => 1 / GSObj.flux o
termination_by structural o => o

/-- Product of the fluxes of a child list (`jnp.prod` over the list). -/
def GSObjList.fluxProd : GSObjList → ℚ
  | .nil => 1
  | .cons o rest => GSObj.flux o * GSObjList.fluxProd rest
termination_by structural os => os

end

mutual

/-- The centroid: a primitive's stored centroid; `Convolution._centroid`
(convolve.py lines 248-253) is the componentwise sum of the children's
centroids; `Deconvolution._centroid` (convolve.py lines 469-471) is the
negated child centroid. -/
def GSObj.centroid : GSObj → Position
  | .prim p => p.centroid
  | .conv objs _ _ _ => GSObjList.centroidSum objs
  | .deconv o _ _ => -(GSObj.centroid o)
termination_by structural o => o

/-- Componentwise sum of the centroids of a child list. -/
def GSObjList.centroidSum : GSObjList → Position
  | .nil => 0
  | .cons o rest => GSObj.centroid o + GSObjList.centroidSum rest
termination_by structural os => os

end

/-- Whether the object has hard edges: a primitive's stored flag;
`Convolution._has_hard_edges` (convolve.py lines 224-226) is true only for a
single hard-edged child; `Deconvolution._has_hard_edges` is the class
attribute `False` (convolve.py line 370). -/
def GSObj.has_hard_edges : GSObj → Bool
  | .prim p => p.has_hard_edges
  | .conv (.cons o .nil) _ _ _ => GSObj.has_hard_edges o
  | .conv _ _ _ _ => false
  | .deconv _ _ _ => false

/-- Whether the object is analytic in real space: a primitive's stored flag;
`Convolution._is_analytic_x` (convolve.py lines 233-241); `Deconvolution`'s
class attribute `False` (convolve.py line 371).  (The two-child branch of the
source contains a `jnp.arry` typo that would raise if evaluated; it is
unreachable for constructed objects because their stored real_space flag is
always false.) -/
def GSObj.is_analytic_x : GSObj → Bool
  | .prim p => p.is_analytic_x
  | .conv (.cons o .nil) _ _ _ => GSObj.is_analytic_x o
  | .conv (.cons o1 (.cons o2 .nil)) rs _ _ =>
      if rs then GSObj.is_analytic_x o1 && GSObj.is_analytic_x o2 else false
  | .conv _ _ _ _ => false
  | .deconv _ _ _ => false

mutual

/-- GSObject.withGSParams (gsobject.py lines 241-250) for primitives,
`Convolution.withGSParams` (convolve.py lines 154-170) and
`Deconvolution.withGSParams` (convolve.py lines 404-420) for the composition
nodes: if the gsparams are unchanged the object is returned as-is, otherwise
the gsparams are replaced and, when propagate_gsparams is set, pushed into
the children. -/
def GSObj.withGSParams (g : GSParams) : GSObj → GSObj
  | .prim p => if g = p.gsparams then .prim p else .prim { p with gsparams := g }
  | .conv objs rs gsp prop =>
      if g = gsp then .conv objs rs gsp prop
      else .conv (if prop then GSObjList.withGSParamsList g objs else objs) rs g prop
  | .deconv o gsp prop =>
      if g = gsp then .deconv o gsp prop
      else .deconv (if prop then GSObj.withGSParams g o else o) g prop
termination_by structural o => o

/-- withGSParams mapped over a child list. -/
def GSObjList.withGSParamsList (g : GSParams) : GSObjList → GSObjList
  | .nil => .nil
  | .cons o rest => .cons (GSObj.withGSParams g o) (GSObjList.withGSParamsList g rest)
termination_by structural os => os

end

mutual

/-- Structural equality of GSObjects, mirroring `Convolution.__eq__`
(convolve.py lines 172-179), `Deconvolution.__eq__` (convolve.py lines
422-428) and the base `GSObject.__eq__` (gsobject.py lines 206-210, same
concrete class and equal flattened parameters): never equality by identity. -/
def GSObj.eqb : GSObj → GSObj → Bool
  | .prim p, .prim q => decide (p = q)
  | .conv o1 rs1 g1 p1, .conv o2 rs2 g2 p2 =>
      GSObjList.eqbList o1 o2 && (rs1 == rs2) && decide (g1 = g2) && (p1 == p2)
  | .deconv o1 g1 p1, .deconv o2 g2 p2 =>
      GSObj.eqb o1 o2 && decide (g1 = g2) && (p1 == p2)
  | _, _ => false
termination_by structural a _b => a

/-- Elementwise structural equality of two child lists. -/
def GSObjList.eqbList : GSObjList → GSObjList → Bool
  | .nil, .nil => true
  | .cons a xs, .cons b ys => GSObj.eqb a b && GSObjList.eqbList xs ys
  | _, _ => false
termination_by structural xs _ys => xs

end

/-- Deconvolution.__init__ (convolve.py lines 373-383): resolve the gsparams
against the child's, then store the child, pushed through `withGSParams` when
propagate_gsparams is set. -/
def Deconvolution (obj : GSObj) (gsparams : Option GSParams)
    (propagate_gsparams : Bool) : GSObj :=
  let gsp := GSParams.check gsparams obj.gsparams
  .deconv (if propagate_gsparams then obj.withGSParams gsp else obj) gsp propagate_gsparams

/-- Deconvolve (convolve.py lines 348-364): the functional wrapper, which for
a GSObject argument just constructs a `Deconvolution`. -/
def Deconvolve (obj : GSObj) (gsparams : Option GSParams)
    (propagate_gsparams : Bool) : GSObj :=
  Deconvolution obj gsparams propagate_gsparams

/-- The wrapped child of a `Deconvolution` node (`Deconvolution.orig_obj`,
convolve.py lines 393-396); other nodes are returned unchanged. -/
def GSObj.origObj : GSObj → GSObj
  | .deconv o _ _ => o
  | o => o

/-- Errors raised by `Convolution.__init__`: the fatal TypeError for an empty
argument list (convolve.py lines 42-43) and the NotImplementedError for a
surviving real-space request (convolve.py lines 121-122). -/
inductive ConvErr where
  | typeError
  | notImplemented
deriving DecidableEq, Repr

/-- The `real_space` value after the auto-detection step of
`Convolution.__init__` (convolve.py lines 77-84): when not given, real space
is chosen for at most two children that all have hard edges. -/
def convAutoRealSpace (args : GSObjList) (real_space : Option Bool) : Bool :=
  match real_space with
  | none => if args.length ≤ 2 then args.all GSObj.has_hard_edges else false
  | some b => b

/-- The `real_space` value after the demotion step of `Convolution.__init__`
(convolve.py lines 99-117): a real-space request with more than two children,
or with a child that is not analytic in real space, is demoted to the DFT
method (with a warning, which has no observable effect on the result). -/
def convRealSpace (args : GSObjList) (real_space : Option Bool) : Bool :=
  let rs := convAutoRealSpace args real_space
  if rs then
    if args.length > 2 then false
    else if args.any (fun o => !o.is_analytic_x) then false
    else rs
  else rs

/-- Convolution.__init__ (convolve.py lines 40-140) for an argument list of
GSObjects: the empty list is a TypeError; a real-space request that survives
auto-detection and demotion raises NotImplementedError; otherwise the stored
real_space flag is false, the gsparams are the given ones or the most
restrictive combination of the children's, and the children are pushed
through `withGSParams` when propagate_gsparams is set.  The hard-edge
warnings (lines 86-98) have no observable effect on the result. -/
def ConvolutionInit (args : GSObjList) (real_space : Option Bool)
    (gsparams : Option GSParams) (propagate_gsparams : Bool) : Except ConvErr GSObj :=
  if args.length = 0 then .error .typeError
  else if convRealSpace args real_space then .error .notImplemented
  else
    let gsp := match gsparams with
      | none => GSParams.combine args.gsparamsList
      | some g => g
    let objs := if propagate_gsparams then GSObjList.withGSParamsList gsp args else args
    .ok (.conv objs false gsp propagate_gsparams)

/-- Whether an `Except` result is a success. -/
def exceptIsOk {ε α : Type} : Except ε α → Bool
  | .ok _ => true
  | .error _ => false

/-- Deconvolution._min_acc_kvalue (convolve.py lines 385-387): the clamp
threshold, the child's flux times the k-value accuracy of the node's
gsparams. -/
def Deconvolution_min_acc_kvalue (orig_obj : GSObj) (gsparams : GSParams) : ℚ :=
  orig_obj.flux * gsparams.kvalue_accuracy

/-- Deconvolution._kValue (convolve.py lines 493-502), with the child's
(real-valued) k-space amplitude at the requested position abstracted as
`kval`: where the magnitude of the child's k-value is below the clamp
threshold the reciprocal of the threshold is returned, otherwise the
reciprocal of the child's k-value. -/
def Deconvolution_kValue (orig_obj : GSObj) (gsparams : GSParams) (kval : ℚ) : ℚ :=
  if |kval| < Deconvolution_min_acc_kvalue orig_obj gsparams then
    1 / Deconvolution_min_acc_kvalue orig_obj gsparams
  else 1 / kval

/-! ## The photon accumulation loop (gsobject.py) -/

/-- Modelled from the spec: `PhotonArray.scaleFlux` (photon_array.py is not
among the sources); spec §4.7: scale every photon's flux by the factor. -/
def scaleFlux (factor : ℚ) (flux : List ℚ) : List ℚ :=
  flux.map (fun f => f * factor)

/-- The skip condition of `_draw_phot_while_loop_shoot` (gsobject.py lines
1492-1494): the flux multiply is skipped when
`|g - 1| + |thisN - Ntot| == 0`, the source's way of saying `g == 1` and
`thisN == Ntot`. -/
def shootSkip (g : ℚ) (thisN Ntot : ℕ) : Bool :=
  decide (|g - 1| + |(thisN : ℚ) - (Ntot : ℚ)| = 0)

/-- The flux scaling of `_draw_phot_while_loop_shoot` (gsobject.py lines
1492-1502): unless skipped, every photon flux is scaled by
`g * thisN / Ntot`. -/
def shootScaleFlux (g : ℚ) (thisN Ntot : ℕ) (flux : List ℚ) : List ℚ :=
  if shootSkip g thisN Ntot then flux
  else scaleFlux (g * (thisN : ℚ) / (Ntot : ℚ)) flux

/-- One iteration of the photon accumulation loop, as observed from outside:
the remaining photon count at loop entry, the chunk size `thisN`, the photon
fluxes as shot, and the fluxes after the conditional scaling. -/
structure ShootChunk where
  Nleft : ℕ
  thisN : ℕ
  rawFlux : List ℚ
  outFlux : List ℚ
deriving DecidableEq, Repr

/-- The while loop of `_draw_phot_while_loop` (gsobject.py lines 1550-1593):
while `Nleft > 0`, shoot a chunk of `thisN = min maxN Nleft` photons (the
fluxes drawn at iteration `k` are abstracted as `shootFn k`, standing for
`obj.shoot(maxN, rng)`), scale their fluxes, and continue with
`Nleft - thisN`.  The fuel argument bounds the iteration count; `fuel = Ntot`
is enough whenever `maxN ≥ 1`. -/
def drawPhotWhileLoopAux (g : ℚ) (maxN Ntot : ℕ) (shootFn : ℕ → List ℚ) :
    ℕ → ℕ → ℕ → List ShootChunk
  | 0, _, _ => []
  | fuel + 1, Nleft, k =>
      if Nleft = 0 then []
      else
        let thisN := min maxN Nleft
        let raw := shootFn k
        { Nleft := Nleft, thisN := thisN, rawFlux := raw,
          outFlux := shootScaleFlux g thisN Ntot raw } ::
          drawPhotWhileLoopAux g maxN Ntot shootFn fuel (Nleft - thisN) (k + 1)

/-- The chunk trace of the photon accumulation loop of `drawPhot` with the
maxN option set (gsobject.py lines 1349-1365, 1533-1593): the loop starts at
`Nleft = Ntot` and runs until `Nleft = 0`. -/
def drawPhotChunks (g : ℚ) (maxN Ntot : ℕ) (shootFn : ℕ → List ℚ) : List ShootChunk :=
  drawPhotWhileLoopAux g maxN Ntot shootFn Ntot Ntot 0

/-! ## Concrete inputs used by witnesses and counterexamples -/

/-- Accuracy parameters with an exactly representable (integer) k-value
accuracy, convenient for concrete evaluation. -/
def gspW : GSParams := ⟨8192, 0⟩

/-- A concrete primitive stand-in profile: flux 2, centroid (3, -1), no hard
edges, analytic in real space. -/
def profA : Profile := ⟨2, ⟨3, -1⟩, false, true, gspW⟩

/-- A second concrete stand-in: flux 3, centroid (1, 2). -/
def profB : Profile := ⟨3, ⟨1, 2⟩, false, true, gspW⟩

/-- A third concrete stand-in: flux 5, centroid (0, 4). -/
def profC : Profile := ⟨5, ⟨0, 4⟩, false, true, gspW⟩

/-- A concrete 1×1 const image holding the value 2. -/
def constImg : Image :=
  { array := [[2]], bounds := Bounds.fromExtrema 1 1 1 1, wcs := none, is_const := true }

/-! ## Basic lemmas -/

theorem Position.add_def (p q : Position) : p + q = ⟨p.x + q.x, p.y + q.y⟩ := rfl

theorem Position.neg_def (p : Position) : -p = ⟨-p.x, -p.y⟩ := rfl

theorem Position.zero_def : (0 : Position) = ⟨0, 0⟩ := rfl

theorem Position.add_zero (p : Position) : p + 0 = p := by
  obtain ⟨x, y⟩ := p
  simp [Position.add_def, Position.zero_def]

/-- Undefined bounds are absorbing for `&` and the identity for `+`, for any
scalar kind; the union with an undefined left operand agrees with the right
operand up to the program's bounds value equality (all undefined bounds are
one canonical empty value). -/
theorem Bounds.empty_absorb_identity {α : Type} [LinearOrder α] [Zero α] (b : Bounds α) :
    Bounds.and Bounds.empty b = Bounds.empty ∧
    Bounds.and b Bounds.empty = Bounds.empty ∧
    Bounds.eqv (Bounds.add Bounds.empty b) b = true ∧
    Bounds.add b Bounds.empty = b := by
  refine ⟨rfl, ?_, ?_, ?_⟩
  · cases hb : b.isdefined <;> simp [Bounds.and, Bounds.empty, hb]
  · cases hb : b.isdefined <;> simp [Bounds.add, Bounds.empty, Bounds.eqv, hb]
  · simp [Bounds.add, Bounds.empty]

mutual

/-- Replacing gsparams (with propagation) never changes the flux. -/
theorem GSObj.flux_withGSParams (g : GSParams) :
    (o : GSObj) → (GSObj.withGSParams g o).flux = o.flux
  | .prim p => by
      simp only [GSObj.withGSParams]
      split <;> rfl
  | .conv objs rs gsp prop => by
      simp only [GSObj.withGSParams]
      split
      · rfl
      · cases prop
        · rfl
        · simp only [if_true, GSObj.flux]
          exact GSObjList.fluxProd_withGSParamsList g objs
  | .deconv o gsp prop => by
      simp only [GSObj.withGSParams]
      split
      · rfl
      · cases prop
        · rfl
        · simp only [if_true, GSObj.flux]
          rw [GSObj.flux_withGSParams g o]
termination_by structural o => o

/-- Replacing gsparams (with propagation) never changes a child list's flux
product. -/
theorem GSObjList.fluxProd_withGSParamsList (g : GSParams) :
    (os : GSObjList) → (GSObjList.withGSParamsList g os).fluxProd = os.fluxProd
  | .nil => rfl
  | .cons o rest => by
      simp only [GSObjList.withGSParamsList, GSObjList.fluxProd]
      rw [GSObj.flux_withGSParams g o, GSObjList.fluxProd_withGSParamsList g rest]
termination_by structural os => os

end

mutual

/-- Replacing gsparams (with propagation) never changes the centroid. -/
theorem GSObj.centroid_withGSParams (g : GSParams) :
    (o : GSObj) → (GSObj.withGSParams g o).centroid = o.centroid
  | .prim p => by
      simp only [GSObj.withGSParams]
      split <;> rfl
  | .conv objs rs gsp prop => by
      simp only [GSObj.withGSParams]
      split
      · rfl
      · cases prop
        · rfl
        · simp only [if_true, GSObj.centroid]
          exact GSObjList.centroidSum_withGSParamsList g objs
  | .deconv o gsp prop => by
      simp only [GSObj.withGSParams]
      split
      · rfl
      · cases prop
        · rfl
        · simp only [if_true, GSObj.centroid]
          rw [GSObj.centroid_withGSParams g o]
termination_by structural o => o

/-- Replacing gsparams (with propagation) never changes a child list's
centroid sum. -/
theorem GSObjList.centroidSum_withGSParamsList (g : GSParams) :
    (os : GSObjList) → (GSObjList.withGSParamsList g os).centroidSum = os.centroidSum
  | .nil => rfl
  | .cons o rest => by
      simp only [GSObjList.withGSParamsList, GSObjList.centroidSum]
      rw [GSObj.centroid_withGSParams g o, GSObjList.centroidSum_withGSParamsList g rest]
termination_by structural os => os

end

/-- The number of `Deconvolution` wrappers at the root of an object. -/
def GSObj.topDeconvs : GSObj → ℕ
  | .deconv o _ _ => GSObj.topDeconvs o + 1
  | _ => 0

/-- Replacing gsparams never changes the constructors, in particular not the
number of root `Deconvolution` wrappers. -/
theorem GSObj.topDeconvs_withGSParams (g : GSParams) :
    (o : GSObj) → (GSObj.withGSParams g o).topDeconvs = o.topDeconvs
  | .prim p => by
      simp only [GSObj.withGSParams]
      split <;> rfl
  | .conv objs rs gsp prop => by
      simp only [GSObj.withGSParams]
      split <;> rfl
  | .deconv o gsp prop => by
      simp only [GSObj.withGSParams]
      split
      · rfl
      · cases prop
        · rfl
        · simp only [if_true, GSObj.topDeconvs]
          rw [GSObj.topDeconvs_withGSParams g o]

/-- Structurally equal objects have the same number of root `Deconvolution`
wrappers. -/
theorem GSObj.eqb_topDeconvs :
    (a b : GSObj) → GSObj.eqb a b = true → a.topDeconvs = b.topDeconvs
  | .prim _, .prim _, _ => rfl
  | .conv _ _ _ _, .conv _ _ _ _, _ => rfl
  | .deconv o1 g1 p1, .deconv o2 g2 p2, h => by
      simp only [GSObj.eqb, Bool.and_eq_true] at h
      simp only [GSObj.topDeconvs]
      rw [GSObj.eqb_topDeconvs o1 o2 h.1.1]

theorem Position.neg_neg (p : Position) : -(-p) = p := by
  obtain ⟨x, y⟩ := p
  simp [Position.neg_def]

/-- A `Deconvolve` adds exactly one root `Deconvolution` wrapper. -/
theorem Deconvolve_topDeconvs (o : GSObj) (g : Option GSParams) (pr : Bool) :
    (Deconvolve o g pr).topDeconvs = o.topDeconvs + 1 := by
  simp only [Deconvolve, Deconvolution, GSObj.topDeconvs]
  cases pr
  · rfl
  · simp [GSObj.topDeconvs_withGSParams]

/-- Deconvolution._flux (convolve.py lines 473-475) through the constructor:
the flux of a `Deconvolve` is the reciprocal of the child's flux, whatever the
gsparams propagation. -/
theorem Deconvolve_flux (o : GSObj) (g : Option GSParams) (pr : Bool) :
    (Deconvolve o g pr).flux = 1 / o.flux := by
  simp only [Deconvolve, Deconvolution, GSObj.flux]
  cases pr
  · rfl
  · simp [GSObj.flux_withGSParams]

/-- Deconvolution._centroid (convolve.py lines 469-471) through the
constructor: the centroid of a `Deconvolve` is the negated child centroid. -/
theorem Deconvolve_centroid (o : GSObj) (g : Option GSParams) (pr : Bool) :
    (Deconvolve o g pr).centroid = -o.centroid := by
  simp only [Deconvolve, Deconvolution, GSObj.centroid]
  cases pr
  · rfl
  · simp [GSObj.centroid_withGSParams]

/-! ## Claim theorems -/

/-- Claim C1, counterexample: for the concrete primitive stand-in (flux 2,
centroid (3, -1)), `Deconvolve(Deconvolve(obj))` is NOT structurally equal to
`obj`: it is a `Deconvolution` node, the stand-in is not, and the program's
structural equality distinguishes them. -/
theorem deconvolve_twice_not_equal_counterexample :
    GSObj.eqb (Deconvolve (Deconvolve (.prim profA) none true) none true)
      (.prim profA) = false := rfl

/-- Claim C1, amended: `Deconvolve(Deconvolve(obj))` is never structurally
equal to `obj` (it carries two extra root `Deconvolution` wrappers); what
holds up to gsparams propagation is the equivalence of the derived
quantities: its flux equals obj's flux (for nonzero flux; each wrap takes the
reciprocal) and its centroid equals obj's centroid (each wrap negates). -/
theorem deconvolve_twice_flux_centroid (obj : GSObj) (g1 g2 : Option GSParams)
    (pr1 pr2 : Bool) (_h : obj.flux ≠ 0) :
    GSObj.eqb (Deconvolve (Deconvolve obj g1 pr1) g2 pr2) obj = false ∧
    (Deconvolve (Deconvolve obj g1 pr1) g2 pr2).flux = obj.flux ∧
    (Deconvolve (Deconvolve obj g1 pr1) g2 pr2).centroid = obj.centroid := by
  refine ⟨?_, ?_, ?_⟩
  · cases he : GSObj.eqb (Deconvolve (Deconvolve obj g1 pr1) g2 pr2) obj
    · rfl
    · exfalso
      have htop := GSObj.eqb_topDeconvs _ _ he
      rw [Deconvolve_topDeconvs, Deconvolve_topDeconvs] at htop
      omega
  · rw [Deconvolve_flux, Deconvolve_flux, one_div_one_div]
  · rw [Deconvolve_centroid, Deconvolve_centroid, Position.neg_neg]

/-- Claim C1 witness: the amended statement at the concrete stand-in. -/
theorem deconvolve_twice_flux_centroid_witness :
    GSObj.flux (.prim profA) ≠ 0 ∧
    (GSObj.eqb (Deconvolve (Deconvolve (.prim profA) none true) none true)
        (.prim profA) = false ∧
      (Deconvolve (Deconvolve (.prim profA) none true) none true).flux =
        GSObj.flux (.prim profA) ∧
      (Deconvolve (Deconvolve (.prim profA) none true) none true).centroid =
        GSObj.centroid (.prim profA)) :=
  ⟨by norm_num [GSObj.flux, profA],
    deconvolve_twice_flux_centroid (.prim profA) none none true true
      (by norm_num [GSObj.flux, profA])⟩

/-- Claim C5, counterexample: the bounds constructed from the four integer
extrema (5, 1, 1, 5) (so xmin > xmax) is in NEITHER of the two states the
claim allows: it is not defined with ordered extrema, and it is not the
canonical all-zero undefined value — the flag is cleared but the fields keep
the given extrema. -/
theorem bounds_inverted_extrema_not_canonical :
    ¬(((Bounds.fromExtrema (5 : ℤ) 1 1 5).isdefined = true ∧
        (Bounds.fromExtrema (5 : ℤ) 1 1 5).xmin ≤ (Bounds.fromExtrema (5 : ℤ) 1 1 5).xmax ∧
        (Bounds.fromExtrema (5 : ℤ) 1 1 5).ymin ≤ (Bounds.fromExtrema (5 : ℤ) 1 1 5).ymax) ∨
      ((Bounds.fromExtrema (5 : ℤ) 1 1 5).isdefined = false ∧
        Bounds.fromExtrema (5 : ℤ) 1 1 5 = Bounds.empty)) := by
  decide

/-- Claim C5, amended: a bounds constructed from four scalar extrema is
flagged defined exactly when xmin ≤ xmax and ymin ≤ ymax; the four stored
fields always keep the given extrema (they are NOT reset to zero when the
flag is cleared); the canonical all-zero undefined value is produced by the
zero-argument constructor. -/
theorem bounds_constructor_states {α : Type} [LinearOrder α] [Zero α]
    (xmin xmax ymin ymax : α) :
    ((Bounds.fromExtrema xmin xmax ymin ymax).isdefined = true ↔
      xmin ≤ xmax ∧ ymin ≤ ymax) ∧
    (Bounds.fromExtrema xmin xmax ymin ymax).xmin = xmin ∧
    (Bounds.fromExtrema xmin xmax ymin ymax).xmax = xmax ∧
    (Bounds.fromExtrema xmin xmax ymin ymax).ymin = ymin ∧
    (Bounds.fromExtrema xmin xmax ymin ymax).ymax = ymax ∧
    (Bounds.empty : Bounds α) = ⟨0, 0, 0, 0, false⟩ := by
  refine ⟨?_, rfl, rfl, rfl, rfl, rfl⟩
  constructor
  · intro h
    by_contra hc
    rw [not_and_or, not_le, not_le] at hc
    rw [Bounds.fromExtrema, if_pos (hc.imp id id)] at h
    exact Bool.false_ne_true h
  · rintro ⟨h1, h2⟩
    rw [Bounds.fromExtrema, if_neg]
    rw [not_or, not_lt, not_lt]
    exact ⟨h1, h2⟩

/-- Claim C6: for either bounds kind (integer `BoundsI` or real `BoundsD`),
the undefined bounds u is absorbing for intersection (u & b and b & u are the
undefined empty value) and the identity for union (u + b equals b under the
program's bounds equality, and b + u is b itself). -/
theorem undefined_bounds_absorbing_and_identity :
    (∀ b : Bounds ℤ,
      Bounds.and Bounds.empty b = Bounds.empty ∧
      Bounds.and b Bounds.empty = Bounds.empty ∧
      Bounds.eqv (Bounds.add Bounds.empty b) b = true ∧
      Bounds.add b Bounds.empty = b) ∧
    (∀ b : Bounds ℚ,
      Bounds.and Bounds.empty b = Bounds.empty ∧
      Bounds.and b Bounds.empty = Bounds.empty ∧
      Bounds.eqv (Bounds.add Bounds.empty b) b = true ∧
      Bounds.add b Bounds.empty = b) :=
  ⟨fun b => Bounds.empty_absorb_identity b, fun b => Bounds.empty_absorb_identity b⟩

/-- Claim C9: for every image with defined bounds and every requested bounds
that is not fully contained in the image's bounds, `subImage` (and hence
`im[bounds]`, which delegates to it) fails with a bounds error; no clipped
sub-image is returned. -/
theorem subImage_not_contained_bounds_error (im : Image) (b : Bounds ℤ)
    (hdef : im.bounds.isdefined = true)
    (hnc : ¬(im.bounds.xmin ≤ b.xmin ∧ b.xmax ≤ im.bounds.xmax ∧
             im.bounds.ymin ≤ b.ymin ∧ b.ymax ≤ im.bounds.ymax)) :
    im.subImage b = .error .boundsError ∧ im.getItemB b = .error .boundsError := by
  have hinc : im.bounds.includesB b = false := by
    rw [Bounds.includesB]
    rw [not_and_or, not_and_or, not_and_or] at hnc
    rcases hnc with h | h | h | h <;>
      simp [decide_eq_false (by exact h), ge_iff_le]
  constructor <;>
    simp [Image.subImage, Image.getItemB, hdef, hinc]

/-- Claim C9 witness: the spec's concrete scenario,
`Image(BoundsI(1,5,1,5))[BoundsI(3,9,3,9)]` fails with a bounds error. -/
theorem subImage_not_contained_bounds_error_witness :
    (Image.fromBounds (Bounds.fromExtrema 1 5 1 5)).bounds.isdefined = true ∧
    ¬((Image.fromBounds (Bounds.fromExtrema 1 5 1 5)).bounds.xmin ≤
        (Bounds.fromExtrema (3 : ℤ) 9 3 9).xmin ∧
      (Bounds.fromExtrema (3 : ℤ) 9 3 9).xmax ≤
        (Image.fromBounds (Bounds.fromExtrema 1 5 1 5)).bounds.xmax ∧
      (Image.fromBounds (Bounds.fromExtrema 1 5 1 5)).bounds.ymin ≤
        (Bounds.fromExtrema (3 : ℤ) 9 3 9).ymin ∧
      (Bounds.fromExtrema (3 : ℤ) 9 3 9).ymax ≤
        (Image.fromBounds (Bounds.fromExtrema 1 5 1 5)).bounds.ymax) ∧
    ((Image.fromBounds (Bounds.fromExtrema 1 5 1 5)).subImage
        (Bounds.fromExtrema 3 9 3 9) = .error .boundsError ∧
      (Image.fromBounds (Bounds.fromExtrema 1 5 1 5)).getItemB
        (Bounds.fromExtrema 3 9 3 9) = .error .boundsError) :=
  ⟨by decide, by decide,
    subImage_not_contained_bounds_error _ _ (by decide) (by decide)⟩

/-- Claim C10: the binary elementwise operators +, -, * on two images check
only that the two underlying arrays have equal shape — equal bounds or equal
wcs are not required — and on success the result carries the LEFT operand's
bounds and wcs. -/
theorem image_binary_ops_shape_only (im1 im2 : Image) :
    (exceptIsOk (Image_add im1 im2) = true ↔ im1.array.shape = im2.array.shape) ∧
    (im1.array.shape = im2.array.shape →
      Image_add im1 im2 = .ok { array := PixArray.zipPix (· + ·) im1.array im2.array,
                                bounds := im1.bounds, wcs := im1.wcs, is_const := false }) ∧
    (exceptIsOk (Image_sub im1 im2) = true ↔ im1.array.shape = im2.array.shape) ∧
    (im1.array.shape = im2.array.shape →
      Image_sub im1 im2 = .ok { array := PixArray.zipPix (· - ·) im1.array im2.array,
                                bounds := im1.bounds, wcs := im1.wcs, is_const := false }) ∧
    (exceptIsOk (Image_mul im1 im2) = true ↔ im1.array.shape = im2.array.shape) ∧
    (im1.array.shape = im2.array.shape →
      Image_mul im1 im2 = .ok { array := PixArray.zipPix (· * ·) im1.array im2.array,
                                bounds := im1.bounds, wcs := im1.wcs, is_const := false }) := by
  by_cases h : im1.array.shape = im2.array.shape <;>
    simp [Image_add, Image_sub, Image_mul, exceptIsOk, h]

/-- Claim C10 witness: two 1×1 images with different bounds and different
wcs; the binary operators succeed anyway and keep the left operand's bounds
and wcs. -/
theorem image_binary_ops_shape_only_witness :
    (Image.mk [[1]] (Bounds.fromExtrema 1 1 1 1) (some 1) false).array.shape =
      (Image.mk [[2]] (Bounds.fromExtrema 3 3 5 5) none false).array.shape ∧
    Image_add (Image.mk [[1]] (Bounds.fromExtrema 1 1 1 1) (some 1) false)
        (Image.mk [[2]] (Bounds.fromExtrema 3 3 5 5) none false) =
      .ok { array := PixArray.zipPix (· + ·) [[1]] [[2]],
            bounds := Bounds.fromExtrema 1 1 1 1, wcs := some 1, is_const := false } :=
  ⟨by decide,
    (image_binary_ops_shape_only
      (Image.mk [[1]] (Bounds.fromExtrema 1 1 1 1) (some 1) false)
      (Image.mk [[2]] (Bounds.fromExtrema 3 3 5 5) none false)).2.1 (by decide)⟩

/-- Claim C4 (code bug): on a const image, the named mutating methods
setValue, addValue, fill, setZero, resize, setSubImage and copyFrom all fail
with the immutability error, but the in-place operator `+=` (`Image_iadd`)
performs no isconst check: on the const 1×1 image holding 2 it returns the
image with its array mutated to 4, raising no error. -/
theorem const_image_iadd_mutates :
    constImg.is_const = true ∧
    Image_iadd constImg constImg = .ok { constImg with array := [[4]] } ∧
    Image.setValue constImg 1 1 5 = .error .immutable ∧
    Image.addValue constImg 1 1 5 = .error .immutable ∧
    Image.fill constImg 3 = .error .immutable ∧
    Image.setZero constImg = .error .immutable ∧
    Image.resize constImg (Bounds.fromExtrema 1 2 1 2) none = .error .immutable ∧
    Image.setSubImage constImg (Bounds.fromExtrema 1 1 1 1) constImg = .error .immutable ∧
    Image.copyFrom constImg constImg = .error .immutable := by
  refine ⟨rfl, ?_, rfl, rfl, rfl, rfl, rfl, rfl, rfl⟩
  simp [Image_iadd, constImg, PixArray.zipPix, PixArray.shape]
  norm_num

/-- No child fails the test exactly when every child passes it. -/
theorem GSObjList.any_not_eq_false_iff_all (f : GSObj → Bool) :
    (os : GSObjList) → (os.any (fun o => !f o) = false ↔ os.all f = true)
  | .nil => by simp [GSObjList.any, GSObjList.all]
  | .cons o rest => by
      simp only [GSObjList.any, GSObjList.all, Bool.or_eq_false_iff, Bool.and_eq_true,
        Bool.not_eq_false']
      rw [GSObjList.any_not_eq_false_iff_all f rest]

/-- An explicit real-space request survives auto-detection and demotion (and
so reaches the raise) exactly when there are at most two children, all
analytic in real space. -/
theorem convRealSpace_some_true_iff (args : GSObjList) :
    convRealSpace args (some true) = true ↔
      (args.length ≤ 2 ∧ args.all GSObj.is_analytic_x = true) := by
  simp only [convRealSpace, convAutoRealSpace, if_true]
  by_cases h2 : args.length > 2
  · rw [if_pos h2]
    simp
    omega
  · rw [if_neg h2]
    by_cases hany : args.any (fun o => !o.is_analytic_x) = true
    · rw [if_pos hany]
      simp only [Bool.false_eq_true, false_iff, not_and]
      intro _
      intro hall
      rw [← GSObjList.any_not_eq_false_iff_all] at hall
      rw [hall] at hany
      exact Bool.false_ne_true hany
    · rw [if_neg hany]
      simp only [true_iff]
      refine ⟨by omega, ?_⟩
      rw [← GSObjList.any_not_eq_false_iff_all]
      exact Bool.not_eq_true _ ▸ Bool.of_not_eq_true hany

/-- Claim C3, counterexample: with three children, an explicit
`real_space=True` request does NOT fail: the request is demoted to the DFT
method (with a warning) and construction succeeds. -/
theorem convolution_real_space_three_children_ok :
    exceptIsOk (ConvolutionInit
      (.cons (.prim profA) (.cons (.prim profB) (.cons (.prim profC) .nil)))
      (some true) none true) = true := rfl

/-- Claim C3, amended: constructing a Convolution with `real_space=True`
fails with the "not implemented" error exactly when there are at most two
children and all of them are analytic in real space; with more than two
children, or a child that is not analytic in real space, the request is
demoted to FFT (with a warning) and construction succeeds. -/
theorem convolution_real_space_error_iff (args : GSObjList) (g : Option GSParams)
    (pr : Bool) (h : args.length ≠ 0) :
    (ConvolutionInit args (some true) g pr = .error .notImplemented ↔
      (args.length ≤ 2 ∧ args.all GSObj.is_analytic_x = true)) ∧
    (¬(args.length ≤ 2 ∧ args.all GSObj.is_analytic_x = true) →
      exceptIsOk (ConvolutionInit args (some true) g pr) = true) := by
  constructor
  · rw [ConvolutionInit.eq_def, if_neg h]
    by_cases hc : convRealSpace args (some true) = true
    · rw [if_pos hc]
      exact ⟨fun _ => (convRealSpace_some_true_iff args).mp hc, fun _ => rfl⟩
    · rw [if_neg hc]
      constructor
      · intro habs
        exact absurd habs (by simp)
      · intro hcond
        exact absurd ((convRealSpace_some_true_iff args).mpr hcond) hc
  · intro hnc
    have hc : convRealSpace args (some true) = false := by
      cases hcv : convRealSpace args (some true)
      · rfl
      · exact absurd ((convRealSpace_some_true_iff args).mp hcv) hnc
    simp [ConvolutionInit, h, hc, exceptIsOk]

/-- Claim C3 witness: with two analytic children the request does raise the
"not implemented" error, as the amended claim predicts. -/
theorem convolution_real_space_error_iff_witness :
    (GSObjList.cons (.prim profA) (.cons (.prim profB) .nil)).length ≠ 0 ∧
    ((ConvolutionInit (.cons (.prim profA) (.cons (.prim profB) .nil))
          (some true) none true = .error .notImplemented ↔
        ((GSObjList.cons (.prim profA) (.cons (.prim profB) .nil)).length ≤ 2 ∧
          (GSObjList.cons (.prim profA) (.cons (.prim profB) .nil)).all
            GSObj.is_analytic_x = true)) ∧
      (¬((GSObjList.cons (.prim profA) (.cons (.prim profB) .nil)).length ≤ 2 ∧
          (GSObjList.cons (.prim profA) (.cons (.prim profB) .nil)).all
            GSObj.is_analytic_x = true) →
        exceptIsOk (ConvolutionInit (.cons (.prim profA) (.cons (.prim profB) .nil))
          (some true) none true) = true)) :=
  ⟨by decide, convolution_real_space_error_iff _ none true (by decide)⟩

/-- Whenever `Convolution.__init__` succeeds, the resulting object's flux is
the product of the argument objects' fluxes and its centroid the sum of their
centroids (the gsparams propagation into the children changes neither). -/
theorem ConvolutionInit_ok_flux_centroid (args : GSObjList) (rs : Option Bool)
    (g : Option GSParams) (pr : Bool) (c : GSObj)
    (h : ConvolutionInit args rs g pr = .ok c) :
    c.flux = args.fluxProd ∧ c.centroid = args.centroidSum := by
  rw [ConvolutionInit.eq_def] at h
  by_cases h0 : args.length = 0
  · rw [if_pos h0] at h
    exact absurd h (by simp)
  · rw [if_neg h0] at h
    by_cases h1 : convRealSpace args rs = true
    · rw [if_pos h1] at h
      exact absurd h (by simp)
    · rw [if_neg h1] at h
      simp only [Except.ok.injEq] at h
      subst h
      cases pr
      · exact ⟨rfl, rfl⟩
      · constructor
        · simp only [GSObj.flux, if_true]
          exact GSObjList.fluxProd_withGSParamsList _ args
        · simp only [GSObj.centroid, if_true]
          exact GSObjList.centroidSum_withGSParamsList _ args

/-- Claim C7: for every successfully constructed Convolution the flux is the
product of the children's fluxes and the centroid the componentwise sum of
their centroids; in particular, for `Convolution([a, b])` the flux is
`a.flux * b.flux` and the centroid `a.centroid + b.centroid`. -/
theorem convolution_flux_product_centroid_sum (args : GSObjList) (rs : Option Bool)
    (g : Option GSParams) (pr : Bool) (a b c c2 : GSObj)
    (h : ConvolutionInit args rs g pr = .ok c)
    (h2 : ConvolutionInit (.cons a (.cons b .nil)) rs g pr = .ok c2) :
    c.flux = args.fluxProd ∧ c.centroid = args.centroidSum ∧
    c2.flux = a.flux * b.flux ∧ c2.centroid = a.centroid + b.centroid := by
  obtain ⟨hf, hc⟩ := ConvolutionInit_ok_flux_centroid args rs g pr c h
  obtain ⟨hf2, hc2⟩ := ConvolutionInit_ok_flux_centroid _ rs g pr c2 h2
  refine ⟨hf, hc, ?_, ?_⟩
  · rw [hf2]
    simp [GSObjList.fluxProd, GSObj.flux]
  · rw [hc2]
    simp [GSObjList.centroidSum, GSObj.centroid, Position.add_zero]

/-- Claim C7 witness: the two concrete stand-ins (fluxes 2 and 3, centroids
(3, -1) and (1, 2)); the constructed Convolution is evaluated explicitly. -/
theorem convolution_flux_product_centroid_sum_witness :
    ConvolutionInit (.cons (.prim profA) (.cons (.prim profB) .nil)) none
        (some gspW) true =
      .ok (.conv (GSObjList.withGSParamsList gspW
            (.cons (.prim profA) (.cons (.prim profB) .nil))) false gspW true) ∧
    ((GSObj.conv (GSObjList.withGSParamsList gspW
          (.cons (.prim profA) (.cons (.prim profB) .nil))) false gspW true).flux =
        (GSObjList.cons (.prim profA) (.cons (.prim profB) .nil)).fluxProd ∧
      (GSObj.conv (GSObjList.withGSParamsList gspW
          (.cons (.prim profA) (.cons (.prim profB) .nil))) false gspW true).centroid =
        (GSObjList.cons (.prim profA) (.cons (.prim profB) .nil)).centroidSum ∧
      (GSObj.conv (GSObjList.withGSParamsList gspW
          (.cons (.prim profA) (.cons (.prim profB) .nil))) false gspW true).flux =
        GSObj.flux (.prim profA) * GSObj.flux (.prim profB) ∧
      (GSObj.conv (GSObjList.withGSParamsList gspW
          (.cons (.prim profA) (.cons (.prim profB) .nil))) false gspW true).centroid =
        GSObj.centroid (.prim profA) + GSObj.centroid (.prim profB)) :=
  ⟨rfl,
    convolution_flux_product_centroid_sum
      (.cons (.prim profA) (.cons (.prim profB) .nil)) none (some gspW) true
      (.prim profA) (.prim profB) _ _ rfl rfl⟩

/-- Claim C8: for a Deconvolution of a child with gsparams g, at any k-space
position where the magnitude of the child's k-value is at least the threshold
`child.flux * kvalue_accuracy` the Deconvolution's k-value is the reciprocal
of the child's k-value; below the threshold it is the reciprocal of the
threshold itself, never the raw reciprocal.  Moreover for the object built by
`Deconvolve(child, g)` the clamp threshold is exactly
`child.flux * g.kvalue_accuracy`, whatever the gsparams propagation. -/
theorem deconvolution_kvalue_clamp (orig : GSObj) (g : GSParams) (kval : ℚ)
    (pr : Bool) :
    (Deconvolution_min_acc_kvalue orig g ≤ |kval| →
      Deconvolution_kValue orig g kval = 1 / kval) ∧
    (|kval| < Deconvolution_min_acc_kvalue orig g →
      Deconvolution_kValue orig g kval = 1 / (orig.flux * g.kvalue_accuracy)) ∧
    Deconvolution_min_acc_kvalue (Deconvolve orig (some g) pr).origObj
        (Deconvolve orig (some g) pr).gsparams = orig.flux * g.kvalue_accuracy := by
  refine ⟨?_, ?_, ?_⟩
  · intro h
    rw [Deconvolution_kValue, if_neg (not_lt.mpr h)]
  · intro h
    rw [Deconvolution_kValue, if_pos h]
    rfl
  · simp only [Deconvolve, Deconvolution, GSObj.origObj, GSObj.gsparams,
      GSParams.check, Option.getD]
    cases pr
    · rfl
    · simp [Deconvolution_min_acc_kvalue, GSObj.flux_withGSParams]

/-- Claim C8 witness: child flux 2, kvalue_accuracy 1 (threshold 2); at
k-value 5 the threshold is not hit and the reciprocal 1/5 is returned, at
k-value 1 the clamp applies and the reciprocal of the threshold is returned
instead of 1. -/
theorem deconvolution_kvalue_clamp_witness :
    (Deconvolution_min_acc_kvalue (.prim profA) ⟨8192, 1⟩ ≤ |(5 : ℚ)| ∧
      Deconvolution_kValue (.prim profA) ⟨8192, 1⟩ 5 = 1 / 5) ∧
    (|(1 : ℚ)| < Deconvolution_min_acc_kvalue (.prim profA) ⟨8192, 1⟩ ∧
      Deconvolution_kValue (.prim profA) ⟨8192, 1⟩ 1 =
        1 / (GSObj.flux (.prim profA) * (1 : ℚ))) :=
  ⟨⟨by norm_num [Deconvolution_min_acc_kvalue, GSObj.flux, profA],
    (deconvolution_kvalue_clamp (.prim profA) ⟨8192, 1⟩ 5 true).1
      (by norm_num [Deconvolution_min_acc_kvalue, GSObj.flux, profA])⟩,
   ⟨by norm_num [Deconvolution_min_acc_kvalue, GSObj.flux, profA],
    (deconvolution_kvalue_clamp (.prim profA) ⟨8192, 1⟩ 1 true).2.1
      (by norm_num [Deconvolution_min_acc_kvalue, GSObj.flux, profA])⟩⟩

/-- The source's skip condition `|g - 1| + |thisN - Ntot| == 0` holds exactly
when `g = 1` and `thisN = Ntot`. -/
theorem shootSkip_iff (g : ℚ) (thisN Ntot : ℕ) :
    shootSkip g thisN Ntot = true ↔ (g = 1 ∧ thisN = Ntot) := by
  rw [shootSkip, decide_eq_true_iff]
  rw [add_eq_zero_iff_of_nonneg (abs_nonneg _) (abs_nonneg _)]
  rw [abs_eq_zero, abs_eq_zero, sub_eq_zero, sub_eq_zero]
  exact and_congr Iff.rfl Nat.cast_inj

/-- Every chunk record produced by the bounded while loop satisfies the
per-iteration contract: the chunk size is `min maxN remaining`, and the
output fluxes are the shot fluxes scaled by `g * thisN / Ntot` — except that
the multiply is skipped exactly when `g = 1` and the chunk covers all of
`Ntot`. -/
theorem drawPhotWhileLoopAux_chunk_spec (g : ℚ) (maxN Ntot : ℕ)
    (shootFn : ℕ → List ℚ) :
    ∀ fuel Nleft k ch, ch ∈ drawPhotWhileLoopAux g maxN Ntot shootFn fuel Nleft k →
      ch.thisN = min maxN ch.Nleft ∧
      (ch.outFlux = scaleFlux (g * (ch.thisN : ℚ) / (Ntot : ℚ)) ch.rawFlux ∨
        (g = 1 ∧ ch.thisN = Ntot ∧ ch.outFlux = ch.rawFlux)) := by
  intro fuel
  induction fuel with
  | zero =>
      intro Nleft k ch h
      simp [drawPhotWhileLoopAux] at h
  | succ n ih =>
      intro Nleft k ch h
      rw [drawPhotWhileLoopAux] at h
      by_cases h0 : Nleft = 0
      · rw [if_pos h0] at h
        simp at h
      · rw [if_neg h0] at h
        rcases List.mem_cons.mp h with hh | ht
        · subst hh
          refine ⟨rfl, ?_⟩
          by_cases hs : shootSkip g (min maxN Nleft) Ntot = true
          · right
            obtain ⟨h1, h2⟩ := (shootSkip_iff _ _ _).mp hs
            exact ⟨h1, h2, by simp [shootScaleFlux, hs]⟩
          · left
            simp [shootScaleFlux, Bool.eq_false_iff.mpr hs]
        · exact ih _ _ _ ht

/-- Claim C2: in every iteration of the photon accumulation loop of drawPhot
(total count Ntot, per-call capacity maxN), the chunk size is
`thisN = min(maxN, remaining)` and the chunk's photon fluxes are the shot
fluxes scaled by `g * thisN / Ntot` (g being the per-photon flux scale
computed before the loop, already divided by the gain) — the multiply being
skipped exactly when `g = 1` and `thisN = Ntot`, i.e. when the chunk is the
only one. -/
theorem drawPhot_chunk_spec (g : ℚ) (maxN Ntot : ℕ) (shootFn : ℕ → List ℚ)
    (ch : ShootChunk) (hch : ch ∈ drawPhotChunks g maxN Ntot shootFn) :
    ch.thisN = min maxN ch.Nleft ∧
    (ch.outFlux = scaleFlux (g * (ch.thisN : ℚ) / (Ntot : ℚ)) ch.rawFlux ∨
      (g = 1 ∧ ch.thisN = Ntot ∧ ch.outFlux = ch.rawFlux)) :=
  drawPhotWhileLoopAux_chunk_spec g maxN Ntot shootFn Ntot Ntot 0 ch hch

/-- Claim C2 witness: capacity 2, total 3, per-photon scale 3, every shot
photon carrying flux 1.  The first chunk is (remaining 3, thisN 2, scaled by
3·2/3 = 2). -/
theorem drawPhot_chunk_spec_witness :
    (ShootChunk.mk 3 2 [1] [2] ∈ drawPhotChunks 3 2 3 (fun _ => [1])) ∧
    ((ShootChunk.mk 3 2 [1] [2]).thisN = min 2 (ShootChunk.mk 3 2 [1] [2]).Nleft ∧
      ((ShootChunk.mk 3 2 [1] [2]).outFlux =
          scaleFlux (3 * ((ShootChunk.mk 3 2 [1] [2]).thisN : ℚ) / ((3 : ℕ) : ℚ))
            (ShootChunk.mk 3 2 [1] [2]).rawFlux ∨
        ((3 : ℚ) = 1 ∧ (ShootChunk.mk 3 2 [1] [2]).thisN = 3 ∧
          (ShootChunk.mk 3 2 [1] [2]).outFlux = (ShootChunk.mk 3 2 [1] [2]).rawFlux))) :=
  ⟨by norm_num [drawPhotChunks, drawPhotWhileLoopAux, shootScaleFlux, shootSkip,
      scaleFlux],
   drawPhot_chunk_spec 3 2 3 (fun _ => [1]) (ShootChunk.mk 3 2 [1] [2])
     (by norm_num [drawPhotChunks, drawPhotWhileLoopAux, shootScaleFlux, shootSkip,
        scaleFlux])⟩

end JaxGalsim
